import Mathlib

/-!
Verification development for the fast-crud-api repository: a shallow
embedding of its query builder, document transformer, method validator,
CRUD/nested list handlers and error handler, with theorems checking the
natural-language specification against the code.

JavaScript values are modelled by `JsVal` (strings, numbers, ObjectIds,
null, undefined); JavaScript numbers by `JsNum` (NaN, the infinities and
integers — the fractional values never arise in the modelled code paths).
JavaScript objects are modelled as insertion-ordered association lists;
`objSet` models property assignment (overwrite keeps the original
position, as in JS object literals and spreads).
-/

namespace FastCrud

/-- Model of a JavaScript number as it appears in this code base:
NaN, the two infinities, or an integer. -/
inductive JsNum where
  | nan
  | inf
  | negInf
  | int (n : Int)
deriving DecidableEq, Repr

/-- Model of a JavaScript value appearing in requests, filters and
documents: string, number, a Mongo ObjectId (carrying its hex string),
null, or undefined. -/
inductive JsVal where
  | str (s : String)
  | num (n : JsNum)
  | oid (s : String)
  | null
  | undefined
deriving DecidableEq, Repr

/-- A JavaScript object: an insertion-ordered association list. Real JS
objects have unique keys; the operations below use first-occurrence
semantics, which coincides with JS on unique-key lists. -/
abbrev JsObj := List (String × JsVal)

/-- Property read: first entry with the given key (JS property access). -/
def objGet (o : JsObj) (k : String) : Option JsVal :=
  match o with
  | [] => none
  | p :: rest => if p.1 = k then some p.2 else objGet rest k

/-- Property assignment: replace the value at the first occurrence of the
key (keeping its position, as JS does), or append a new entry. -/
def objSet (o : JsObj) (k : String) (v : JsVal) : JsObj :=
  match o with
  | [] => [(k, v)]
  | p :: rest => if p.1 = k then (k, v) :: rest else p :: objSet rest k v

/-- Whether the object has an entry with the given key. -/
def objHasKey (o : JsObj) (k : String) : Bool :=
  match o with
  | [] => false
  | p :: rest => p.1 == k || objHasKey rest k

/-- JS truthiness for the modelled values: null/undefined, the empty
string, 0 and NaN are falsy; objects (ObjectIds) are truthy. -/
def jsTruthy (v : JsVal) : Bool :=
  match v with
  | .str s => s ≠ ""
  | .num .nan => false
  | .num (.int n) => n ≠ 0
  | .num _ => true
  | .oid _ => true
  | .null => false
  | .undefined => false

/-- Rendering of a `JsNum` by JS `toString`. -/
def jsNumToString (n : JsNum) : String :=
  match n with
  | .nan => "NaN"
  | .inf => "Infinity"
  | .negInf => "-Infinity"
  | .int n => toString n

/-- JS `.toString()` on a value: throws (`.error`) on null and undefined,
otherwise yields the string rendering (an ObjectId renders as its hex
string). -/
def jsToString (v : JsVal) : Except Unit String :=
  match v with
  | .str s => .ok s
  | .num n => .ok (jsNumToString n)
  | .oid s => .ok s
  | .null => .error ()
  | .undefined => .error ()

/-- The whitespace characters skipped by JS numeric parsing. -/
def isJsWhitespace (c : Char) : Bool :=
  c == ' ' || c == '\t' || c == '\n' || c == '\r' || c == '\x0b' || c == '\x0c'

/-- Hexadecimal digit test (for the `0x` radix prefix of `parseInt`). -/
def isHexDigitJs (c : Char) : Bool :=
  c.isDigit || ('a' ≤ c && c ≤ 'f') || ('A' ≤ c && c ≤ 'F')

/-- Numeric value of a hex digit. -/
def hexVal (c : Char) : Nat :=
  if c.isDigit then c.toNat - 48
  else if 'a' ≤ c && c ≤ 'f' then c.toNat - 87
  else c.toNat - 55

/-- Value of a list of decimal digits. -/
def digitsToNat (ds : List Char) : Nat :=
  ds.foldl (fun a c => a * 10 + (c.toNat - 48)) 0

/-- Value of a list of hexadecimal digits. -/
def hexDigitsToNat (ds : List Char) : Nat :=
  ds.foldl (fun a c => a * 16 + hexVal c) 0

/-- JS `parseInt` with no radix argument: skip leading whitespace, read an
optional sign, honour a `0x`/`0X` prefix as hexadecimal, then take the
longest digit prefix; NaN when no digit is found. -/
def parseIntJs (s : String) : JsNum :=
  let cs := s.data.dropWhile isJsWhitespace
  let sign : Int := match cs with
    | '-' :: _ => -1
    | _ => 1
  let cs := match cs with
    | '-' :: r => r
    | '+' :: r => r
    | _ => cs
  match cs with
  | '0' :: x :: r =>
    if x == 'x' || x == 'X' then
      let ds := r.takeWhile isHexDigitJs
      if ds.isEmpty then .nan else .int (sign * (hexDigitsToNat ds : Int))
    else
      .int (sign * (digitsToNat (('0' :: x :: r).takeWhile Char.isDigit) : Int))
  | _ =>
    let ds := cs.takeWhile Char.isDigit
    if ds.isEmpty then .nan else .int (sign * (digitsToNat ds : Int))

/-- JS `Number()` coercion of a string, on the fragment of the numeric
grammar this code base can meet: after trimming whitespace, the empty
string is 0, an unsigned `0x` literal is hexadecimal, an optionally
signed digit string is decimal, and signed `Infinity` is infinite; every
other string — including fractional and exponent literals, which lie
outside the integral value universe of this model — is NaN. -/
def jsToNumber (s : String) : JsNum :=
  let cs := (s.data.dropWhile isJsWhitespace).reverse.dropWhile isJsWhitespace |>.reverse
  if cs.isEmpty then .int 0
  else
    match cs with
    | '0' :: 'x' :: r =>
      if !r.isEmpty && r.all isHexDigitJs then .int (hexDigitsToNat r) else .nan
    | '0' :: 'X' :: r =>
      if !r.isEmpty && r.all isHexDigitJs then .int (hexDigitsToNat r) else .nan
    | _ =>
      let sign : Int := match cs with
        | '-' :: _ => -1
        | _ => 1
      let cs2 := match cs with
        | '-' :: r => r
        | '+' :: r => r
        | _ => cs
      if !cs2.isEmpty && cs2.all Char.isDigit then .int (sign * (digitsToNat cs2 : Int))
      else if cs2 = "Infinity".data then (if sign = 1 then .inf else .negInf)
      else .nan

/-- JS subtraction on the modelled numbers. -/
def jsSub (a b : JsNum) : JsNum :=
  match a, b with
  | .nan, _ => .nan
  | _, .nan => .nan
  | .inf, .inf => .nan
  | .inf, _ => .inf
  | .negInf, .negInf => .nan
  | .negInf, _ => .negInf
  | .int _, .inf => .negInf
  | .int _, .negInf => .inf
  | .int a, .int b => .int (a - b)

/-- JS multiplication on the modelled numbers. -/
def jsMul (a b : JsNum) : JsNum :=
  match a, b with
  | .nan, _ => .nan
  | _, .nan => .nan
  | .inf, .inf => .inf
  | .inf, .negInf => .negInf
  | .negInf, .inf => .negInf
  | .negInf, .negInf => .inf
  | .inf, .int n => if n = 0 then .nan else if n < 0 then .negInf else .inf
  | .int n, .inf => if n = 0 then .nan else if n < 0 then .negInf else .inf
  | .negInf, .int n => if n = 0 then .nan else if n < 0 then .inf else .negInf
  | .int n, .negInf => if n = 0 then .nan else if n < 0 then .inf else .negInf
  | .int a, .int b => .int (a * b)

/-- JS `Math.ceil(a / b)` on the modelled numbers; for nonzero integers
the exact ceiling of the rational quotient, via floor division. -/
def jsCeilDiv (a b : JsNum) : JsNum :=
  match a, b with
  | .nan, _ => .nan
  | _, .nan => .nan
  | .inf, .inf => .nan
  | .inf, .negInf => .nan
  | .negInf, .inf => .nan
  | .negInf, .negInf => .nan
  | .inf, .int n => if n < 0 then .negInf else .inf
  | .negInf, .int n => if n < 0 then .inf else .negInf
  | .int _, .inf => .int 0
  | .int _, .negInf => .int 0
  | .int a, .int b =>
    if b = 0 then (if a = 0 then .nan else if a > 0 then .inf else .negInf)
    else .int (-((-a).fdiv b))

/-- JS `String.prototype.toLowerCase` (ASCII fragment). -/
def toLowerJs (s : String) : String :=
  String.mk (s.data.map Char.toLower)

/-! ## Schema model

A Mongoose model, as the routes read it: a collection name and the map
`schema.paths` from path name to a path descriptor exposing `instance`
(the type name, e.g. "String"), `options.ref` (the referenced model name,
when the path is a reference), and `cast` (the path's cast function). -/

/-- One entry of `model.schema.paths`: `instanceName` models
`schemaType.instance`, `ref` models `schemaType.options.ref` (`none`
covering a missing `options` object or a missing/undefined `ref`), and
`castFn` models `schemaType.cast`. -/
structure SchemaPath where
  instanceName : String := ""
  ref : Option String := none
  castFn : JsVal → JsVal := fun v => v

/-- A Mongoose model as consumed by the route registrars. -/
structure Schema where
  collectionName : String
  paths : List (String × SchemaPath)

/-- Property access on `schema.paths` (first occurrence). -/
def pathLookup (m : Schema) (k : String) : Option SchemaPath :=
  match m.paths.find? (fun p => p.1 == k) with
  | some p => some p.2
  | none => none

/-- Truthiness of `schemaType.options && schemaType.options.ref`:
present and not the (falsy) empty string. -/
def refTruthy (sp : SchemaPath) : Bool :=
  match sp.ref with
  | some r => r ≠ ""
  | none => false

/-- Searchable fields, from crud.js / nested.js:
`Object.keys(model.schema.paths).filter(path => paths[path].instance === 'String')`. -/
def searchableFields (m : Schema) : List String :=
  (m.paths.map Prod.fst).filter (fun k =>
    match pathLookup m k with
    | some sp => sp.instanceName == "String"
    | none => false)

/-- Reference fields, from crud.js lines 23-26:
`Object.keys(paths).filter(path => paths[path].options && paths[path].options.ref)`. -/
def referenceFields (m : Schema) : List String :=
  (m.paths.map Prod.fst).filter (fun k =>
    match pathLookup m k with
    | some sp => refTruthy sp
    | none => false)

/-- `model.schema.paths[field].cast(v)`. The `none` branch is unreachable
in the handlers, which only cast fields drawn from `referenceFields`
(JS would throw on a missing path). -/
def castOf (m : Schema) (field : String) (v : JsVal) : JsVal :=
  match pathLookup m field with
  | some sp => sp.castFn v
  | none => .undefined

/-! ## Document transformer (src/utils/document.js) -/

/-- The body of the reduce in transformDocument: a value whose
constructor is named ObjectId is stringified, every other value is kept. -/
def stringifyOid (v : JsVal) : JsVal :=
  match v with
  | .oid s => .str s
  | _ => v

/-- transformDocument (src/utils/document.js lines 7-24). `none` input
models a null/absent document and returns null. Otherwise the plain
object view is destructured as `{_id, __v, ...rest}`; the output is the
literal `{id: _id.toString(), ...rest-with-ObjectIds-stringified}`,
built by JS property assignment (`objSet`), so a user field named id in
`rest` overwrites the stringified identifier. `_id.toString()` throws
(`.error ()`) when _id is absent (undefined) or nullish. -/
def transformDocument (doc : Option JsObj) : Except Unit (Option JsObj) :=
  match doc with
  | none => .ok none
  | some obj =>
    let rest := obj.filter (fun p => p.1 ≠ "_id" && p.1 ≠ "__v")
    match objGet obj "_id" with
    | none => .error ()
    | some v =>
      match jsToString v with
      | .error e => .error e
      | .ok s =>
        .ok (some (rest.foldl (fun acc p => objSet acc p.1 (stringifyOid p.2)) [("id", .str s)]))

/-! ## Method validator (src/validators/method.js) -/

/-- An allow-list: resource name to either an array of verbs (`some`) or
a nullish/falsy entry (`none`). The whole map absent is modelled by
`Option AllowList = none` at the call site. -/
abbrev AllowList := List (String × Option (List String))

/-- The case-insensitive key search of method.js lines 12-14. -/
def findAllowKey (am : AllowList) (modelName : String) : Option (String × Option (List String)) :=
  am.find? (fun kv => toLowerJs kv.1 == toLowerJs modelName)

/-- isMethodAllowed (src/validators/method.js lines 8-18). Note the JS
guard `if (!key || !allowedMethods[key]) return true`: a found key that
is the empty string is itself falsy, so it returns true exactly like a
missing key. -/
def isMethodAllowed (modelName method : String) (allowedMethods : Option AllowList) : Bool :=
  match allowedMethods with
  | none => true
  | some am =>
    match findAllowKey am modelName with
    | none => true
    | some kv =>
      if kv.1 = "" then true
      else
        match kv.2 with
        | none => true
        | some l => l.contains method

/-! ## Query builder (src/utils/query.js) -/

/-- The sort argument threaded to `.sort(...)`: either the literal
default object `{_id: -1}` written in the code, or `JSON.parse(s)` for a
query-string sort `s`. `JSON.parse` is carried symbolically — no claim
inspects the parsed sort object. -/
inductive SortVal where
  | lit (fields : List (String × Int))
  | jsonOf (s : String)
deriving DecidableEq, Repr

/-- The populate option: a single string or an array of strings. -/
inductive PopulateArg where
  | single (s : String)
  | list (l : List String)
deriving DecidableEq, Repr

/-- JS truthiness of the populate option: an empty single string is
falsy; an array — even the empty array — is truthy. -/
def populateTruthy (p : PopulateArg) : Bool :=
  match p with
  | .single s => s ≠ ""
  | .list _ => true

/-- `Array.isArray(populate) ? populate : [populate]`. -/
def populateNormalize (p : PopulateArg) : List String :=
  match p with
  | .single s => [s]
  | .list l => l

/-- One search condition `{[field]: {$regex: search, $options: 'i'}}`. -/
structure RegexCond where
  field : String
  pattern : String
  ignoreCase : Bool
deriving DecidableEq, Repr

/-- The (lazy, not yet executed) Mongoose query assembled by buildQuery:
the base equality filters of `find`, an optional `$or` clause (AND-ed by
Mongo with the base filters), the populated fields, and the sort, skip
and limit applied in that chaining order. -/
structure QuerySpec where
  filters : JsObj
  orClauses : Option (List RegexCond)
  populate : List String
  sort : SortVal
  skip : JsNum
  limit : JsNum
deriving DecidableEq, Repr

/-- The options bag of buildQuery; `none` models an absent (undefined)
option, for which the destructuring defaults of the source apply. -/
structure QueryOptions where
  page : Option JsNum := none
  limit : Option JsNum := none
  sort : Option SortVal := none
  search : Option String := none
  searchFields : Option (List String) := none
  populate : Option PopulateArg := none

/-- buildQuery (src/utils/query.js lines 14-49). Defaults page=1,
limit=10, sort={_id:-1}, searchFields=[]; the or-clause is added only
when `search` is truthy (present and non-empty) and searchFields is
non-empty; populate is normalized from single-string form; finally
`.sort(sort).skip((page-1)*limit).limit(limit)`. The model parameter is
unused here just as buildQuery only uses it as the query root. -/
def buildQuery (model : Schema) (filters : JsObj) (opts : QueryOptions) : QuerySpec :=
  let page := opts.page.getD (.int 1)
  let limit := opts.limit.getD (.int 10)
  let sort := opts.sort.getD (.lit [("_id", -1)])
  let searchFields := opts.searchFields.getD []
  { filters := filters
    orClauses :=
      match opts.search with
      | some s =>
        if s ≠ "" ∧ searchFields ≠ [] then
          some (searchFields.map (fun f => ⟨f, s, true⟩))
        else none
      | none => none
    populate :=
      match opts.populate with
      | some p => if populateTruthy p then populateNormalize p else []
      | none => []
    sort := sort
    skip := jsMul (jsSub page (.int 1)) limit
    limit := limit }

/-! ## Route handlers (src/routes/crud.js, src/routes/nested.js) -/

/-- The single-record GET query (crud.js lines 75-86): findById plus the
populate calls performed when the populate query param is truthy. -/
structure GetOneSpec where
  id : String
  populate : List String
deriving DecidableEq, Repr

/-- Query assembly of the GET `{base}/:id` handler (crud.js 75-86). -/
def getOneQuery (id : String) (populate : Option PopulateArg) : GetOneSpec :=
  { id := id
    populate :=
      match populate with
      | some p => if populateTruthy p then populateNormalize p else []
      | none => [] }

/-- A parsed list request: the well-known query params (absent = `none`)
and the remaining query-string entries, which are equality filters with
string values. -/
structure ListRequest where
  page : Option String := none
  limit : Option String := none
  sort : Option String := none
  search : Option String := none
  populate : Option PopulateArg := none
  filters : List (String × String) := []

/-- The pagination object of the list response. -/
structure Pagination where
  total : JsNum
  page : JsNum
  limit : JsNum
  pages : JsNum
deriving DecidableEq, Repr

/-- The list response `{data, pagination}`; data entries are the
transformed documents. -/
structure ListResponse where
  data : List (Option JsObj)
  pagination : Pagination
deriving DecidableEq, Repr

/-- Observable behaviour of a list handler: the data query it builds,
the filters it passes to the (concurrently awaited) countDocuments, and
the response it produces from the two results (`.error` when a document
transform throws). -/
structure ListOutcome where
  query : QuerySpec
  countFilters : JsObj
  respond : List JsObj → Int → Except Unit ListResponse

/-- Query-string filters as JS values (query params arrive as strings). -/
def strFilters (fs : List (String × String)) : JsObj :=
  fs.map (fun p => (p.1, .str p.2))

/-- One iteration of the reference-cast loop of the crud list handler
(crud.js 42-44): `if (filters[field]) filters[field] = cast(filters[field])`. -/
def castRefStep (m : Schema) (fs : JsObj) (field : String) : JsObj :=
  match objGet fs field with
  | some v => if jsTruthy v then objSet fs field (castOf m field v) else fs
  | none => fs

/-- The reference-cast loop of the crud list handler (crud.js 41-45):
for each reference field whose filter value is truthy, replace it with
the path's cast of that value. The nested handler has no such loop. -/
def castRefFilters (m : Schema) (filters : JsObj) : JsObj :=
  (referenceFields m).foldl (castRefStep m) filters

/-- The list handler (crud.js lines 30-72). Destructuring defaults
page=1 and limit=10 apply only to absent params; present values go
through parseInt. `pages` is computed as `Math.ceil(total / limit)` on
the raw destructured limit, which JS division coerces with Number — not
with parseInt. -/
def crudListHandler (m : Schema) (req : ListRequest) : ListOutcome :=
  let filters := castRefFilters m (strFilters req.filters)
  let pageN := match req.page with
    | none => JsNum.int 1
    | some s => parseIntJs s
  let limitN := match req.limit with
    | none => JsNum.int 10
    | some s => parseIntJs s
  let sortQuery := match req.sort with
    | none => SortVal.lit [("_id", -1)]
    | some s => SortVal.jsonOf s
  let limitDiv := match req.limit with
    | none => JsNum.int 10
    | some s => jsToNumber s
  { query := buildQuery m filters
      { page := some pageN, limit := some limitN, sort := some sortQuery,
        search := req.search, searchFields := some (searchableFields m),
        populate := req.populate }
    countFilters := filters
    respond := fun recs total =>
      match recs.mapM (fun r => transformDocument (some r)) with
      | .error e => .error e
      | .ok ds =>
        .ok { data := ds
              pagination :=
                { total := .int total, page := pageN, limit := limitN,
                  pages := jsCeilDiv (.int total) limitDiv } } }

/-- The nested list handler (nested.js lines 34-72): same parsing and
response as the crud list handler, but the filters are the raw query
filters with `filters[refField] = cast(refId)` assigned on top — and no
reference-cast loop for the other filters. -/
def nestedListHandler (m : Schema) (refField : String) (refId : String) (req : ListRequest) : ListOutcome :=
  let filters := objSet (strFilters req.filters) refField (castOf m refField (.str refId))
  let pageN := match req.page with
    | none => JsNum.int 1
    | some s => parseIntJs s
  let limitN := match req.limit with
    | none => JsNum.int 10
    | some s => parseIntJs s
  let sortQuery := match req.sort with
    | none => SortVal.lit [("_id", -1)]
    | some s => SortVal.jsonOf s
  let limitDiv := match req.limit with
    | none => JsNum.int 10
    | some s => jsToNumber s
  { query := buildQuery m filters
      { page := some pageN, limit := some limitN, sort := some sortQuery,
        search := req.search, searchFields := some (searchableFields m),
        populate := req.populate }
    countFilters := filters
    respond := fun recs total =>
      match recs.mapM (fun r => transformDocument (some r)) with
      | .error e => .error e
      | .ok ds =>
        .ok { data := ds
              pagination :=
                { total := .int total, page := pageN, limit := limitN,
                  pages := jsCeilDiv (.int total) limitDiv } } }

/-! ## Error handler (src/middleware/error-handler.js) -/

/-- One sub-error of a Mongoose ValidationError (`error.errors` value). -/
structure SubError where
  path : String
  message : String
deriving DecidableEq, Repr

/-- The error object reaching the process-wide handler. -/
structure JsError where
  name : Option String := none
  code : Option Int := none
  errors : List SubError := []

/-- One `{field, message}` entry of the details array. -/
structure ErrDetail where
  field : String
  message : String
deriving DecidableEq, Repr

/-- The JSON error body sent by the handler. -/
structure ErrBody where
  error : String
  message : String
  details : Option (List ErrDetail) := none
deriving DecidableEq, Repr

/-- The handler registered by setupErrorHandler
(src/middleware/error-handler.js lines 6-41), returning the status code
and body it sends; the branches are checked in source order, first match
winning, and the final branch is a fixed constant body. -/
def errorHandler (e : JsError) : Int × ErrBody :=
  if e.name = some "ValidationError" then
    (400, { error := "ValidationError", message := "Invalid data provided",
            details := some (e.errors.map (fun err => ⟨err.path, err.message⟩)) })
  else if e.name = some "CastError" then
    (400, { error := "InvalidId", message := "Invalid ID format provided" })
  else if e.code = some 11000 then
    (409, { error := "DuplicateError", message := "A record with this value already exists" })
  else
    (500, { error := "InternalError", message := "An internal server error occurred" })

/-! ## Observers used by the theorems -/

/-- The pagination object a list handler would respond with (observer:
respond on an empty record list, whose transforms always succeed). -/
def paginationOf (o : ListOutcome) (total : Int) : Option Pagination :=
  match o.respond [] total with
  | .ok r => some r.pagination
  | .error _ => none

/-- The value `parseInt(page)` of a list handler: default 1 only when
the page parameter is absent. -/
def pageVal (req : ListRequest) : JsNum :=
  match req.page with
  | none => .int 1
  | some s => parseIntJs s

/-- The value `parseInt(limit)` of a list handler: default 10 only when
the limit parameter is absent. -/
def limitVal (req : ListRequest) : JsNum :=
  match req.limit with
  | none => .int 10
  | some s => parseIntJs s

/-- The divisor of the `pages` computation `Math.ceil(total / limit)`:
the raw destructured limit, which JS division coerces with Number. -/
def limitDivVal (req : ListRequest) : JsNum :=
  match req.limit with
  | none => .int 10
  | some s => jsToNumber s

/-- Override one filter key in a list outcome (both the data query's
filters and the count filters); used to state what "the list handler
with the reference filter forced" means. -/
def overrideFilter (o : ListOutcome) (field : String) (v : JsVal) : ListOutcome :=
  { o with
    query := { o.query with filters := objSet o.query.filters field v }
    countFilters := objSet o.countFilters field v }

/-- A concrete posts model with two reference fields, mirroring the
shape used throughout the repository's tests (author→User,
category→Category, cast prefixing the id). -/
def postsSchema : Schema :=
  { collectionName := "posts"
    paths :=
      [ ("title", { instanceName := "String" })
      , ("content", { instanceName := "String" })
      , ("author", { instanceName := "ObjectId", ref := some "User",
                     castFn := fun v => match v with
                       | .str s => .oid ("cast-" ++ s)
                       | w => w })
      , ("category", { instanceName := "ObjectId", ref := some "Category",
                       castFn := fun v => match v with
                         | .str s => .oid ("cast-" ++ s)
                         | w => w }) ] }

/-! ## Helper lemmas about JS object operations -/

theorem objGet_objSet_self (o : JsObj) (k : String) (v : JsVal) :
    objGet (objSet o k v) k = some v := by
  induction o with
  | nil => simp [objSet, objGet]
  | cons p rest ih =>
    by_cases h : p.1 = k
    · simp [objSet, h, objGet]
    · simp [objSet, h, objGet, ih]

theorem objGet_objSet_ne (o : JsObj) (k k' : String) (v : JsVal) (h : k' ≠ k) :
    objGet (objSet o k v) k' = objGet o k' := by
  induction o with
  | nil => simp [objSet, objGet, Ne.symm h]
  | cons p rest ih =>
    by_cases hp : p.1 = k
    · simp [objSet, hp, objGet, Ne.symm h]
    · simp [objSet, hp, objGet, ih]

theorem objSet_objSet_same (o : JsObj) (k : String) (v w : JsVal) :
    objSet (objSet o k v) k w = objSet o k w := by
  induction o with
  | nil => simp [objSet]
  | cons p rest ih =>
    by_cases h : p.1 = k
    · simp [objSet, h]
    · simp [objSet, h, ih]

theorem objHasKey_objSet (o : JsObj) (k k' : String) (v : JsVal) :
    objHasKey (objSet o k v) k' = (objHasKey o k' || (k == k')) := by
  induction o with
  | nil => simp [objSet, objHasKey]
  | cons p rest ih =>
    by_cases h : p.1 = k
    · subst h
      cases hk : (p.1 == k') <;> cases hb : objHasKey rest k' <;>
        simp [objSet, objHasKey, hk, hb]
    · simp [objSet, h, objHasKey, ih, Bool.or_assoc]

theorem objHasKey_foldl_objSet (f : String × JsVal → JsVal) (l : List (String × JsVal)) :
    ∀ (acc : JsObj) (k : String),
      objHasKey (l.foldl (fun a p => objSet a p.1 (f p)) acc) k =
        (objHasKey acc k || l.any (fun p => p.1 == k)) := by
  induction l with
  | nil => intro acc k; simp
  | cons p rest ih =>
    intro acc k
    simp only [List.foldl_cons, List.any_cons]
    rw [ih, objHasKey_objSet, Bool.or_assoc]

theorem objGet_foldl_objSet_of_all_ne (f : String × JsVal → JsVal) (l : List (String × JsVal)) :
    ∀ (acc : JsObj) (k : String), (∀ p ∈ l, p.1 ≠ k) →
      objGet (l.foldl (fun a p => objSet a p.1 (f p)) acc) k = objGet acc k := by
  induction l with
  | nil => intro acc k _; simp
  | cons p rest ih =>
    intro acc k h
    simp only [List.foldl_cons]
    rw [ih _ _ (fun q hq => h q (List.mem_cons_of_mem p hq)),
        objGet_objSet_ne _ _ _ _ (fun hh => h p (List.mem_cons_self p rest) hh.symm)]

/-- Unfolding equation for transformDocument on a present document. -/
theorem transformDocument_some_eq (obj : JsObj) :
    transformDocument (some obj) =
      match objGet obj "_id" with
      | none => .error ()
      | some v =>
        match jsToString v with
        | .error e => .error e
        | .ok s =>
          .ok (some ((obj.filter (fun p => p.1 ≠ "_id" && p.1 ≠ "__v")).foldl
            (fun acc p => objSet acc p.1 (stringifyOid p.2)) [("id", .str s)])) := rfl

/-- transformDocument throws when the record lacks `_id`. -/
theorem transformDocument_of_get_none {obj : JsObj} (h : objGet obj "_id" = none) :
    transformDocument (some obj) = .error () := by
  rw [transformDocument_some_eq, h]

/-- transformDocument when the record carries `_id`. -/
theorem transformDocument_of_get_some {obj : JsObj} {v : JsVal}
    (h : objGet obj "_id" = some v) :
    transformDocument (some obj) =
      match jsToString v with
      | .error e => .error e
      | .ok s =>
        .ok (some ((obj.filter (fun p => p.1 ≠ "_id" && p.1 ≠ "__v")).foldl
          (fun acc p => objSet acc p.1 (stringifyOid p.2)) [("id", .str s)])) := by
  rw [transformDocument_some_eq, h]

/-- Members of the rest-spread exclude the identifier and revision keys. -/
theorem mem_restFilter {obj : JsObj} {p : String × JsVal}
    (hp : p ∈ obj.filter (fun p => p.1 ≠ "_id" && p.1 ≠ "__v")) :
    p ∈ obj ∧ p.1 ≠ "_id" ∧ p.1 ≠ "__v" := by
  have h1 := List.mem_filter.mp hp
  refine ⟨h1.1, ?_, ?_⟩ <;> [skip; skip] <;>
    · have h2 := h1.2
      simp only [Bool.and_eq_true, decide_eq_true_eq] at h2
      first
      | exact h2.1
      | exact h2.2

/-- C4 (counterexample): the claim says the output's id field is always
a string for every non-null record, but a record carrying a user field
named id overwrites the stringified identifier in the spread
`{id: _id.toString(), ...rest}`: on `{_id: ObjectId("a1"), id: 5}` the
output is `{id: 5}`, whose id field is a number, not a string. -/
theorem C4_transform_id_counterexample :
    transformDocument (some [("_id", JsVal.oid "a1"), ("id", JsVal.num (.int 5))]) =
      .ok (some [("id", JsVal.num (.int 5))]) ∧
    ¬ ∃ s, objGet [("id", JsVal.num (.int 5))] "id" = some (JsVal.str s) := by
  refine ⟨rfl, ?_⟩
  rintro ⟨s, hs⟩
  simp [objGet] at hs

/-- C4 (amended): transform(null) = null; the output of a successful
transform never contains the raw internal identifier key `_id` nor the
revision marker `__v`; and the output's id field is a string — an oid
`_id` being stringified — provided the record carries no user field
named id (which would overwrite it, as the counterexample shows). -/
theorem C4_transform_wire_invariants :
    transformDocument none = .ok none ∧
    ∀ (obj out : JsObj), transformDocument (some obj) = .ok (some out) →
      (objHasKey out "_id" = false ∧ objHasKey out "__v" = false) ∧
      ((∀ p ∈ obj, p.1 ≠ "id") → ∃ s, objGet out "id" = some (JsVal.str s)) := by
  refine ⟨rfl, ?_⟩
  intro obj out h
  cases hg : objGet obj "_id" with
  | none => rw [transformDocument_of_get_none hg] at h; exact absurd h (by simp)
  | some v =>
    rw [transformDocument_of_get_some hg] at h
    cases hs : jsToString v with
    | error e => rw [hs] at h; simp at h
    | ok s =>
      rw [hs] at h
      simp only [Except.ok.injEq, Option.some.injEq] at h
      subst h
      constructor
      · constructor
        · rw [objHasKey_foldl_objSet]
          simp only [objHasKey, Bool.or_false, Bool.or_eq_false_iff]
          refine ⟨by decide, ?_⟩
          rw [List.any_eq_false]
          intro p hp
          simp only [beq_iff_eq]
          exact (mem_restFilter hp).2.1
        · rw [objHasKey_foldl_objSet]
          simp only [objHasKey, Bool.or_false, Bool.or_eq_false_iff]
          refine ⟨by decide, ?_⟩
          rw [List.any_eq_false]
          intro p hp
          simp only [beq_iff_eq]
          exact (mem_restFilter hp).2.2
      · intro hid
        refine ⟨s, ?_⟩
        rw [objGet_foldl_objSet_of_all_ne]
        · simp [objGet]
        · intro p hp
          exact hid p (mem_restFilter hp).1

/-- C4 (witness): the amended invariants evaluated on a concrete record
`{_id: ObjectId("a1"), __v: 0, title: "x"}`. -/
theorem C4_transform_wire_invariants_witness :
    (objHasKey [("id", JsVal.str "a1"), ("title", JsVal.str "x")] "_id" = false ∧
     objHasKey [("id", JsVal.str "a1"), ("title", JsVal.str "x")] "__v" = false) ∧
    ((∀ p ∈ [("_id", JsVal.oid "a1"), ("__v", JsVal.num (.int 0)), ("title", JsVal.str "x")],
        p.1 ≠ "id") →
      ∃ s, objGet [("id", JsVal.str "a1"), ("title", JsVal.str "x")] "id" =
        some (JsVal.str s)) :=
  C4_transform_wire_invariants.2
    [("_id", JsVal.oid "a1"), ("__v", JsVal.num (.int 0)), ("title", JsVal.str "x")]
    [("id", JsVal.str "a1"), ("title", JsVal.str "x")] rfl

/-- C9 (counterexample): the claim says every non-null record containing
the `_id` field transforms to a non-null wire document, but a record
whose `_id` is null throws in `_id.toString()`. -/
theorem C9_transform_null_id_counterexample :
    transformDocument (some [("_id", JsVal.null)]) = .error () := rfl

/-- C9 (amended): the transformer succeeds on every non-null record
whose `_id` is present and non-nullish, and the precondition is
necessary: on a non-null record lacking `_id`, the unguarded
`_id.toString()` fails instead of returning a document. -/
theorem C9_transform_totality :
    (∀ (obj : JsObj) (v : JsVal), objGet obj "_id" = some v →
        v ≠ JsVal.null → v ≠ JsVal.undefined →
        ∃ w, transformDocument (some obj) = .ok (some w)) ∧
    transformDocument (some [("title", JsVal.str "t")]) = .error () := by
  constructor
  · intro obj v hg hn hu
    rw [transformDocument_some_eq, hg]
    cases v with
    | str s => exact ⟨_, rfl⟩
    | num n => exact ⟨_, rfl⟩
    | oid s => exact ⟨_, rfl⟩
    | null => exact absurd rfl hn
    | undefined => exact absurd rfl hu
  · rfl

/-- C9 (witness): totality evaluated on `{_id: ObjectId("a1")}`. -/
theorem C9_transform_totality_witness :
    ∃ w, transformDocument (some [("_id", JsVal.oid "a1")]) = .ok (some w) :=
  C9_transform_totality.1 [("_id", JsVal.oid "a1")] (JsVal.oid "a1")
    rfl (by decide) (by decide)

/-! ## Method gate theorems (C5) -/

theorem toLowerJs_eq_empty {s : String} (h : toLowerJs s = "") : s = "" := by
  cases s with
  | mk data =>
    have h2 : data.map Char.toLower = String.data "" := congrArg String.data h
    have h3 : data.map Char.toLower = [] := h2
    have h4 : data = [] := List.map_eq_nil_iff.mp h3
    rw [h4]

theorem findAllowKey_fst_ne_empty {am : AllowList} {name k : String}
    {x : Option (List String)} (hname : name ≠ "")
    (h : findAllowKey am name = some (k, x)) : k ≠ "" := by
  intro hk
  have hp := List.find?_some h
  rw [hk] at hp
  have he : toLowerJs "" = toLowerJs name := by
    have := beq_iff_eq.mp hp
    exact this
  exact hname (toLowerJs_eq_empty he.symm)

/-- C5 (counterexample): the claim demands that an allow-list entry
holding an empty list denies all verbs for that resource; for the
resource named by the empty string, the JS guard `!key` treats the found
empty-string key as not-found, so the empty-list entry permits GET. -/
theorem C5_method_gate_counterexample :
    isMethodAllowed "" "GET" (some [("", some [])]) = true := by decide

/-- C5 (amended): for every non-empty resource name, an allow-list entry
holding an empty list denies all verbs, a missing map, a missing entry
or a nullish entry value permits all verbs, and in general a listed
entry permits exactly the verbs it contains; the empty-list and
missing-entry cases are thereby distinguished. -/
theorem C5_method_gate :
    ∀ (name verb : String) (am : AllowList), name ≠ "" →
      isMethodAllowed name verb none = true ∧
      (findAllowKey am name = none → isMethodAllowed name verb (some am) = true) ∧
      (∀ k, findAllowKey am name = some (k, none) →
        isMethodAllowed name verb (some am) = true) ∧
      (∀ k, findAllowKey am name = some (k, some []) →
        isMethodAllowed name verb (some am) = false) ∧
      (∀ k l, findAllowKey am name = some (k, some l) →
        isMethodAllowed name verb (some am) = l.contains verb) := by
  intro name verb am hname
  refine ⟨rfl, ?_, ?_, ?_, ?_⟩
  · intro h; simp [isMethodAllowed, h]
  · intro k h
    simp [isMethodAllowed, h, findAllowKey_fst_ne_empty hname h]
  · intro k h
    simp [isMethodAllowed, h, findAllowKey_fst_ne_empty hname h, List.contains]
  · intro k l h
    simp [isMethodAllowed, h, findAllowKey_fst_ne_empty hname h]

/-- C5 (witness): with the allow-list `{POSTS: []}`, the resource
"posts" (matched case-insensitively) is denied GET, while the unlisted
resource "users" is permitted GET. -/
theorem C5_method_gate_witness :
    isMethodAllowed "posts" "GET" (some [("POSTS", some [])]) = false ∧
    isMethodAllowed "users" "GET" (some [("POSTS", some [])]) = true :=
  ⟨(C5_method_gate "posts" "GET" [("POSTS", some [])] (by decide)).2.2.2.1
      "POSTS" (by decide),
   (C5_method_gate "users" "GET" [("POSTS", some [])] (by decide)).2.1 (by decide)⟩

/-! ## Error translator theorems (C1) -/

/-- C1: classification of the process-wide error handler, checked in
source order with first match winning: a ValidationError yields 400 with
one `{field, message}` detail per sub-error; otherwise a CastError
yields 400 InvalidId; otherwise code 11000 yields 409 DuplicateError;
every remaining error yields 500 with a body that is a fixed constant —
independent of the error, so the original error text is never echoed. -/
theorem C1_error_translator :
    ∀ e : JsError,
      (e.name = some "ValidationError" →
        errorHandler e = (400,
          { error := "ValidationError", message := "Invalid data provided",
            details := some (e.errors.map (fun err => ⟨err.path, err.message⟩)) }) ∧
        (e.errors.map (fun err => (⟨err.path, err.message⟩ : ErrDetail))).length =
          e.errors.length) ∧
      (e.name ≠ some "ValidationError" → e.name = some "CastError" →
        errorHandler e =
          (400, { error := "InvalidId", message := "Invalid ID format provided" })) ∧
      (e.name ≠ some "ValidationError" → e.name ≠ some "CastError" → e.code = some 11000 →
        errorHandler e =
          (409, { error := "DuplicateError",
                  message := "A record with this value already exists" })) ∧
      (e.name ≠ some "ValidationError" → e.name ≠ some "CastError" → e.code ≠ some 11000 →
        errorHandler e =
          (500, { error := "InternalError",
                  message := "An internal server error occurred" })) := by
  intro e
  refine ⟨fun h1 => ⟨?_, by simp⟩, fun h1 h2 => ?_, fun h1 h2 h3 => ?_, fun h1 h2 h3 => ?_⟩ <;>
    simp [errorHandler, *]

/-- C1 (witness): a validation failure with two sub-errors maps to 400
with two details; evaluated on a concrete error object. -/
theorem C1_error_translator_witness :
    errorHandler ⟨some "ValidationError", none, [⟨"f1", "m1"⟩, ⟨"f2", "m2"⟩]⟩ =
      (400, { error := "ValidationError", message := "Invalid data provided",
              details := some [⟨"f1", "m1"⟩, ⟨"f2", "m2"⟩] }) ∧
    (([⟨"f1", "m1"⟩, ⟨"f2", "m2"⟩] : List SubError).map
      (fun err => (⟨err.path, err.message⟩ : ErrDetail))).length = 2 :=
  (C1_error_translator ⟨some "ValidationError", none, [⟨"f1", "m1"⟩, ⟨"f2", "m2"⟩]⟩).1 rfl

/-! ## Query builder theorems (C6, C7, C8) -/

/-- C6: the query builder applies, after the sort, a skip of
`(page-1)*limit` records and a limit of `limit` records, with defaults
page=1, limit=10 and sort `{_id: -1}` (descending on the internal
identifier) when the options are absent: with no options skip=0 and
limit=10, and for integer page and limit options skip=(page-1)*limit. -/
theorem C6_buildQuery_pagination :
    ∀ (m : Schema) (F : JsObj),
      ((buildQuery m F {}).skip = .int 0 ∧ (buildQuery m F {}).limit = .int 10 ∧
        (buildQuery m F {}).sort = .lit [("_id", -1)]) ∧
      (∀ (opts : QueryOptions) (p l : Int),
        opts.page = some (.int p) → opts.limit = some (.int l) →
        (buildQuery m F opts).skip = .int ((p - 1) * l) ∧
        (buildQuery m F opts).limit = .int l) := by
  intro m F
  refine ⟨⟨rfl, rfl, rfl⟩, ?_⟩
  intro opts p l hp hl
  simp [buildQuery, hp, hl, jsSub, jsMul]

/-- C6 (witness): with no options skip=0 and limit=10; with page=3 and
limit=20 the skip is 40. -/
theorem C6_buildQuery_pagination_witness :
    ((buildQuery postsSchema [] {}).skip = .int 0 ∧
      (buildQuery postsSchema [] {}).limit = .int 10 ∧
      (buildQuery postsSchema [] {}).sort = .lit [("_id", -1)]) ∧
    (buildQuery postsSchema []
        { page := some (.int 3), limit := some (.int 20) }).skip = .int 40 :=
  ⟨(C6_buildQuery_pagination postsSchema []).1,
   ((C6_buildQuery_pagination postsSchema []).2
      { page := some (.int 3), limit := some (.int 20) } 3 20 rfl rfl).1⟩

/-- C7: the query builder adds an OR clause if and only if the search
term is present and non-empty and the searchFields list is non-empty;
when added it is exactly one case-insensitive regex condition per search
field, in order, while the base equality filters are left untouched (the
$or is AND-ed with them by the store). -/
theorem C7_buildQuery_search :
    ∀ (m : Schema) (F : JsObj) (opts : QueryOptions),
      ((buildQuery m F opts).orClauses ≠ none ↔
        (∃ s, opts.search = some s ∧ s ≠ "") ∧ opts.searchFields.getD [] ≠ []) ∧
      (∀ s, opts.search = some s → s ≠ "" → opts.searchFields.getD [] ≠ [] →
        (buildQuery m F opts).orClauses =
          some ((opts.searchFields.getD []).map (fun f => ⟨f, s, true⟩))) ∧
      (buildQuery m F opts).filters = F := by
  intro m F opts
  refine ⟨?_, ?_, rfl⟩
  · cases hs : opts.search with
    | none => simp [buildQuery, hs]
    | some s =>
      by_cases h1 : s ≠ "" ∧ opts.searchFields.getD [] ≠ []
      · simp [buildQuery, hs, h1]
      · simp only [buildQuery, hs, if_neg h1]
        constructor
        · intro h; exact (h rfl).elim
        · rintro ⟨⟨t, ht, htne⟩, hfne⟩
          rw [Option.some.injEq] at ht
          subst ht
          exact ((h1 ⟨htne, hfne⟩).elim : (none : Option (List RegexCond)) ≠ none)
  · intro s hs hne hf
    simp [buildQuery, hs, hne, hf]

/-- C7 (witness): searching "test" over the searchable fields of the
posts model yields one case-insensitive condition per field. -/
theorem C7_buildQuery_search_witness :
    (buildQuery postsSchema []
        { search := some "test", searchFields := some ["title", "content"] }).orClauses =
      some [⟨"title", "test", true⟩, ⟨"content", "test", true⟩] :=
  (C7_buildQuery_search postsSchema []
      { search := some "test", searchFields := some ["title", "content"] }).2.1
    "test" rfl (by decide) (by decide)

/-- C8 (counterexample): the claim quantifies over every field name, but
for the empty field name the two populate forms differ, because the
single string "" is falsy (the populate branch is skipped entirely)
while the array [""] is truthy (populate("") is requested): this holds
in both the query builder and the single-record GET handler. -/
theorem C8_populate_counterexample :
    buildQuery postsSchema [] { populate := some (.single "") } ≠
      buildQuery postsSchema [] { populate := some (.list [""]) } ∧
    getOneQuery "x" (some (.single "")) ≠ getOneQuery "x" (some (.list [""])) := by
  exact ⟨by decide, by decide⟩

/-- C8 (amended): for every non-empty field name f, the populate
directive given as the single string f and as the one-element list [f]
produce identical queries, in both the query builder and the
single-record GET handler. -/
theorem C8_populate_string_list :
    ∀ (m : Schema) (F : JsObj) (opts : QueryOptions) (f id : String), f ≠ "" →
      buildQuery m F { opts with populate := some (.single f) } =
        buildQuery m F { opts with populate := some (.list [f]) } ∧
      getOneQuery id (some (.single f)) = getOneQuery id (some (.list [f])) := by
  intro m F opts f id hf
  constructor
  · simp [buildQuery, populateTruthy, populateNormalize, hf]
  · simp [getOneQuery, populateTruthy, populateNormalize, hf]

/-- C8 (witness): populating "author" by string and by one-element list
builds the same query in both places. -/
theorem C8_populate_string_list_witness :
    buildQuery postsSchema [] { populate := some (.single "author") } =
      buildQuery postsSchema [] { populate := some (.list ["author"]) } ∧
    getOneQuery "abc" (some (.single "author")) =
      getOneQuery "abc" (some (.list ["author"])) :=
  C8_populate_string_list postsSchema [] {} "author" "abc" (by decide)

/-! ## Unfolding lemmas for the list handlers -/

theorem crudListHandler_query_filters (m : Schema) (req : ListRequest) :
    (crudListHandler m req).query.filters = castRefFilters m (strFilters req.filters) := rfl

theorem crudListHandler_countFilters (m : Schema) (req : ListRequest) :
    (crudListHandler m req).countFilters = castRefFilters m (strFilters req.filters) := rfl

theorem crudListHandler_query_skip (m : Schema) (req : ListRequest) :
    (crudListHandler m req).query.skip =
      jsMul (jsSub (pageVal req) (.int 1)) (limitVal req) := rfl

theorem crudListHandler_query_limit (m : Schema) (req : ListRequest) :
    (crudListHandler m req).query.limit = limitVal req := rfl

theorem paginationOf_crudListHandler (m : Schema) (req : ListRequest) (total : Int) :
    paginationOf (crudListHandler m req) total =
      some { total := .int total, page := pageVal req, limit := limitVal req,
             pages := jsCeilDiv (.int total) (limitDivVal req) } := rfl

theorem crudListHandler_respond (m : Schema) (req : ListRequest)
    (recs : List JsObj) (total : Int) (ds : List (Option JsObj))
    (h : recs.mapM (fun r => transformDocument (some r)) = .ok ds) :
    (crudListHandler m req).respond recs total =
      .ok { data := ds,
            pagination := { total := .int total, page := pageVal req, limit := limitVal req,
                            pages := jsCeilDiv (.int total) (limitDivVal req) } } := by
  show (match recs.mapM (fun r => transformDocument (some r)) with
    | .error e => (.error e : Except Unit ListResponse)
    | .ok ds =>
      .ok { data := ds,
            pagination := { total := .int total, page := pageVal req, limit := limitVal req,
                            pages := jsCeilDiv (.int total) (limitDivVal req) } }) = _
  rw [h]

theorem nestedListHandler_query_filters (m : Schema) (rf rid : String) (req : ListRequest) :
    (nestedListHandler m rf rid req).query.filters =
      objSet (strFilters req.filters) rf (castOf m rf (.str rid)) := rfl

theorem nestedListHandler_query_skip (m : Schema) (rf rid : String) (req : ListRequest) :
    (nestedListHandler m rf rid req).query.skip =
      jsMul (jsSub (pageVal req) (.int 1)) (limitVal req) := rfl

theorem nestedListHandler_query_limit (m : Schema) (rf rid : String) (req : ListRequest) :
    (nestedListHandler m rf rid req).query.limit = limitVal req := rfl

theorem paginationOf_nestedListHandler (m : Schema) (rf rid : String)
    (req : ListRequest) (total : Int) :
    paginationOf (nestedListHandler m rf rid req) total =
      some { total := .int total, page := pageVal req, limit := limitVal req,
             pages := jsCeilDiv (.int total) (limitDivVal req) } := rfl

theorem jsMul_nan_right (a : JsNum) : jsMul a .nan = .nan := by
  cases a <;> rfl

theorem jsMul_nan_left (b : JsNum) : jsMul .nan b = .nan := by
  cases b <;> rfl

/-! ## List endpoint theorems (C3, C10) -/

/-- C3: every list-endpoint response is `{data: transformed records,
pagination: {total, page, limit, pages: ceil(total/limit)}}` — `limit`
in the pages quotient being, as in the source, the raw destructured
limit under JS numeric coercion — where the count query receives exactly
the same (cast-adjusted) filters as the data query, and those count
filters are untouched by the pagination, sort, search and populate
parameters. -/
theorem C3_list_response :
    ∀ (m : Schema) (req : ListRequest) (recs : List JsObj) (total : Int)
      (ds : List (Option JsObj)),
      recs.mapM (fun r => transformDocument (some r)) = .ok ds →
      (crudListHandler m req).respond recs total =
        .ok { data := ds,
              pagination :=
                { total := .int total, page := pageVal req, limit := limitVal req,
                  pages := jsCeilDiv (.int total) (limitDivVal req) } } ∧
      (crudListHandler m req).countFilters = (crudListHandler m req).query.filters ∧
      (∀ p l so se po,
        (crudListHandler m
            { req with page := p, limit := l, sort := so, search := se, populate := po }).countFilters =
          (crudListHandler m req).countFilters) := by
  intro m req recs total ds h
  exact ⟨crudListHandler_respond m req recs total ds h, rfl, fun p l so se po => rfl⟩

/-- C3 (witness): the spec scenario — two matching posts with
`page=2, limit=5, search=test` respond with both records transformed and
pagination `{total: 2, page: 2, limit: 5, pages: 1}`. -/
theorem C3_list_response_witness :
    (crudListHandler postsSchema
        { page := some "2", limit := some "5", search := some "test" }).respond
      [[("_id", JsVal.oid "p1"), ("title", JsVal.str "A")],
       [("_id", JsVal.oid "p2"), ("title", JsVal.str "B")]] 2 =
      .ok { data := [some [("id", JsVal.str "p1"), ("title", JsVal.str "A")],
                     some [("id", JsVal.str "p2"), ("title", JsVal.str "B")]],
            pagination := { total := .int 2, page := .int 2, limit := .int 5,
                            pages := .int 1 } } :=
  (C3_list_response postsSchema
      { page := some "2", limit := some "5", search := some "test" }
      [[("_id", JsVal.oid "p1"), ("title", JsVal.str "A")],
       [("_id", JsVal.oid "p2"), ("title", JsVal.str "B")]] 2
      [some [("id", JsVal.str "p1"), ("title", JsVal.str "A")],
       some [("id", JsVal.str "p2"), ("title", JsVal.str "B")]] rfl).1

/-- C10 (counterexample): the claim says a present non-numeric page or
limit makes the parse failure flow into pagination.page, pagination.limit
and pagination.pages; but with `page=abc` and limit absent, only
pagination.page is NaN — pagination.limit is the default 10 and
pagination.pages is ceil(total/10), because pages never depends on the
page parameter and limit was not supplied. -/
theorem C10_param_parsing_counterexample :
    (paginationOf (crudListHandler postsSchema { page := some "abc" }) 0).map
        Pagination.page = some JsNum.nan ∧
    ¬ ((paginationOf (crudListHandler postsSchema { page := some "abc" }) 0).map
        Pagination.limit = some JsNum.nan) ∧
    ¬ ((paginationOf (crudListHandler postsSchema { page := some "abc" }) 0).map
        Pagination.pages = some JsNum.nan) := by
  exact ⟨rfl, by decide, by decide⟩

/-- C10 (amended): in both the crud and nested list handlers the
defaults apply only to absent parameters; a present page whose parseInt
is NaN makes the skip and pagination.page NaN; a present limit whose
parseInt is NaN makes the query limit, the skip and pagination.limit
NaN; and pagination.pages is NaN exactly when the Number coercion of the
raw present limit is NaN (pages is computed from the raw limit, not from
parseInt, and never from the page parameter). -/
theorem C10_param_parsing :
    ∀ (m : Schema) (rf rid : String) (req : ListRequest) (total : Int) (s : String),
      (req.page = some s → parseIntJs s = .nan →
        (crudListHandler m req).query.skip = .nan ∧
        (paginationOf (crudListHandler m req) total).map Pagination.page =
          some JsNum.nan ∧
        (nestedListHandler m rf rid req).query.skip = .nan ∧
        (paginationOf (nestedListHandler m rf rid req) total).map Pagination.page =
          some JsNum.nan) ∧
      (req.limit = some s → parseIntJs s = .nan →
        (crudListHandler m req).query.limit = .nan ∧
        (crudListHandler m req).query.skip = .nan ∧
        (paginationOf (crudListHandler m req) total).map Pagination.limit =
          some JsNum.nan ∧
        (nestedListHandler m rf rid req).query.limit = .nan ∧
        (nestedListHandler m rf rid req).query.skip = .nan ∧
        (paginationOf (nestedListHandler m rf rid req) total).map Pagination.limit =
          some JsNum.nan) ∧
      (req.limit = some s → jsToNumber s = .nan →
        (paginationOf (crudListHandler m req) total).map Pagination.pages =
          some JsNum.nan ∧
        (paginationOf (nestedListHandler m rf rid req) total).map Pagination.pages =
          some JsNum.nan) ∧
      (req.page = none →
        (paginationOf (crudListHandler m req) total).map Pagination.page =
          some (JsNum.int 1) ∧
        (paginationOf (nestedListHandler m rf rid req) total).map Pagination.page =
          some (JsNum.int 1)) ∧
      (req.limit = none →
        (paginationOf (crudListHandler m req) total).map Pagination.limit =
          some (JsNum.int 10) ∧
        (paginationOf (nestedListHandler m rf rid req) total).map Pagination.limit =
          some (JsNum.int 10)) := by
  intro m rf rid req total s
  have hpage : ∀ h : req.page = some s, pageVal req = parseIntJs s := by
    intro h; simp [pageVal, h]
  have hlimit : ∀ h : req.limit = some s, limitVal req = parseIntJs s := by
    intro h; simp [limitVal, h]
  have hlimitDiv : ∀ h : req.limit = some s, limitDivVal req = jsToNumber s := by
    intro h; simp [limitDivVal, h]
  refine ⟨fun h1 h2 => ?_, fun h1 h2 => ?_, fun h1 h2 => ?_, fun h1 => ?_, fun h1 => ?_⟩
  · rw [crudListHandler_query_skip, nestedListHandler_query_skip,
      paginationOf_crudListHandler, paginationOf_nestedListHandler,
      hpage h1, h2]
    exact ⟨jsMul_nan_left _, rfl, jsMul_nan_left _, rfl⟩
  · rw [crudListHandler_query_skip, crudListHandler_query_limit,
      nestedListHandler_query_skip, nestedListHandler_query_limit,
      paginationOf_crudListHandler, paginationOf_nestedListHandler,
      hlimit h1, h2]
    exact ⟨rfl, jsMul_nan_right _, rfl, rfl, jsMul_nan_right _, rfl⟩
  · rw [paginationOf_crudListHandler, paginationOf_nestedListHandler,
      hlimitDiv h1, h2]
    exact ⟨rfl, rfl⟩
  · rw [paginationOf_crudListHandler, paginationOf_nestedListHandler]
    simp [pageVal, h1]
  · rw [paginationOf_crudListHandler, paginationOf_nestedListHandler]
    simp [limitVal, h1]

/-- C10 (witness): concrete non-numeric parameters — `limit=abc` makes
the query limit, skip and pagination.limit NaN in the crud handler, and
`page=abc` with the nested handler makes its skip NaN. -/
theorem C10_param_parsing_witness :
    (crudListHandler postsSchema { limit := some "abc" }).query.limit = .nan ∧
    (crudListHandler postsSchema { limit := some "abc" }).query.skip = .nan ∧
    (paginationOf (crudListHandler postsSchema { limit := some "abc" }) 7).map
        Pagination.limit = some JsNum.nan ∧
    (nestedListHandler postsSchema "author" "u1" { page := some "abc" }).query.skip = .nan :=
  ⟨((C10_param_parsing postsSchema "author" "u1" { limit := some "abc" } 7 "abc").2.1
      rfl rfl).1,
   ((C10_param_parsing postsSchema "author" "u1" { limit := some "abc" } 7 "abc").2.1
      rfl rfl).2.1,
   ((C10_param_parsing postsSchema "author" "u1" { limit := some "abc" } 7 "abc").2.1
      rfl rfl).2.2.1,
   ((C10_param_parsing postsSchema "author" "u1" { page := some "abc" } 7 "abc").1
      rfl rfl).2.2.1⟩

/-! ## Nested route theorems (C2) -/

theorem castRefStep_of_get_none {m : Schema} {fs : JsObj} {field : String}
    (h : objGet fs field = none) : castRefStep m fs field = fs := by
  simp [castRefStep, h]

theorem castRefStep_of_get_falsy {m : Schema} {fs : JsObj} {field : String} {v : JsVal}
    (h : objGet fs field = some v) (hv : jsTruthy v = false) :
    castRefStep m fs field = fs := by
  simp [castRefStep, h, hv]

theorem castRefStep_of_get_truthy {m : Schema} {fs : JsObj} {field : String} {v : JsVal}
    (h : objGet fs field = some v) (hv : jsTruthy v = true) :
    castRefStep m fs field = objSet fs field (castOf m field v) := by
  simp [castRefStep, h, hv]

/-- Forcing the reference filter on top absorbs whatever the crud cast
loop did, provided no other reference field appears as a truthy filter:
the loop can then only have rewritten the forced key itself. -/
theorem objSet_foldl_castRefStep (m : Schema) (rf : String) (c : JsVal) :
    ∀ (fields : List String) (F : JsObj),
      (∀ f ∈ fields, f ≠ rf →
        objGet F f = none ∨ objGet F f = some (JsVal.str "")) →
      objSet (fields.foldl (castRefStep m) F) rf c = objSet F rf c := by
  intro fields
  induction fields with
  | nil => intro F _; rfl
  | cons f rest ih =>
    intro F hF
    rw [List.foldl_cons]
    by_cases hf : f = rf
    · subst hf
      cases hg : objGet F f with
      | none =>
        rw [castRefStep_of_get_none hg]
        exact ih F (fun q hq => hF q (List.mem_cons_of_mem f hq))
      | some v =>
        cases hv : jsTruthy v with
        | false =>
          rw [castRefStep_of_get_falsy hg hv]
          exact ih F (fun q hq => hF q (List.mem_cons_of_mem f hq))
        | true =>
          rw [castRefStep_of_get_truthy hg hv]
          have hrest : ∀ q ∈ rest, q ≠ f →
              objGet (objSet F f (castOf m f v)) q = none ∨
              objGet (objSet F f (castOf m f v)) q = some (JsVal.str "") := by
            intro q hq hqf
            rw [objGet_objSet_ne _ _ _ _ hqf]
            exact hF q (List.mem_cons_of_mem f hq) hqf
          rw [ih (objSet F f (castOf m f v)) hrest, objSet_objSet_same]
    · have := hF f (List.mem_cons_self f rest) hf
      cases this with
      | inl hg =>
        rw [castRefStep_of_get_none hg]
        exact ih F (fun q hq => hF q (List.mem_cons_of_mem f hq))
      | inr hg =>
        rw [castRefStep_of_get_falsy hg (by decide)]
        exact ih F (fun q hq => hF q (List.mem_cons_of_mem f hq))

/-- C2 (counterexample): the claim says the nested handler behaves like
the list handler with the reference filter forced; but the nested
handler skips the crud handler's reference-cast loop, so a query filter
on a second reference field stays an uncast string in the nested handler
while the list handler casts it: with posts filtered by `category=c1`
under `/user/u1/posts`, the two disagree. -/
theorem C2_nested_handler_counterexample :
    nestedListHandler postsSchema "author" "u1" { filters := [("category", "c1")] } ≠
      overrideFilter (crudListHandler postsSchema { filters := [("category", "c1")] })
        "author" (castOf postsSchema "author" (.str "u1")) := by
  intro h
  have h2 := congrArg (fun o => objGet o.query.filters "category") h
  exact absurd h2 (by decide)

/-- C2 (amended): the nested handler always forces the reference field
to the cast of `:refId` — the reference constraint wins every key
collision, being assigned after the spread of the parsed filters — and
it behaves exactly like the list handler with that filter forced
whenever no other reference field occurs as a truthy query filter (the
nested handler, unlike the list handler, leaves other reference-field
filters uncast). -/
theorem C2_nested_handler :
    ∀ (m : Schema) (rf rid : String) (req : ListRequest),
      objGet (nestedListHandler m rf rid req).query.filters rf =
        some (castOf m rf (.str rid)) ∧
      ((∀ f ∈ referenceFields m, f ≠ rf →
          objGet (strFilters req.filters) f = none ∨
          objGet (strFilters req.filters) f = some (JsVal.str "")) →
        nestedListHandler m rf rid req =
          overrideFilter (crudListHandler m req) rf (castOf m rf (.str rid))) := by
  intro m rf rid req
  constructor
  · rw [nestedListHandler_query_filters]
    exact objGet_objSet_self _ _ _
  · intro H
    have hf : objSet (castRefFilters m (strFilters req.filters)) rf
        (castOf m rf (.str rid)) =
        objSet (strFilters req.filters) rf (castOf m rf (.str rid)) :=
      objSet_foldl_castRefStep m rf (castOf m rf (.str rid))
        (referenceFields m) (strFilters req.filters) H
    show nestedListHandler m rf rid req =
      ({ query := { (crudListHandler m req).query with
           filters := objSet (crudListHandler m req).query.filters rf
             (castOf m rf (.str rid)) }
         countFilters := objSet (crudListHandler m req).countFilters rf
           (castOf m rf (.str rid))
         respond := (crudListHandler m req).respond } : ListOutcome)
    rw [crudListHandler_query_filters, crudListHandler_countFilters, hf]
    rfl

/-- C2 (witness): with no other reference-field filter present, the
nested posts-by-author handler coincides with the overridden list
handler, and its author filter is the cast of the path parameter. -/
theorem C2_nested_handler_witness :
    objGet (nestedListHandler postsSchema "author" "u1"
        { filters := [("title", "x")] }).query.filters "author" =
      some (castOf postsSchema "author" (.str "u1")) ∧
    nestedListHandler postsSchema "author" "u1" { filters := [("title", "x")] } =
      overrideFilter (crudListHandler postsSchema { filters := [("title", "x")] })
        "author" (castOf postsSchema "author" (.str "u1")) :=
  ⟨(C2_nested_handler postsSchema "author" "u1" { filters := [("title", "x")] }).1,
   (C2_nested_handler postsSchema "author" "u1" { filters := [("title", "x")] }).2
     (by decide)⟩

end FastCrud
